import Mathlib

/- Shallow embedding of src/app.py from Polacovicz/capital-com-api.
   The embedded core is the CapitalClient session lifecycle and dispatcher:
   select_account, login, get_headers, api_request, together with the route
   helper validate_and_auth and one representative route handler,
   get_positions.  HTTP is modelled as an oracle (World) mapping each
   outgoing request to an outcome; every stateful operation returns, next to
   its Python return value, the updated client state and the list of HTTP
   requests it sent, in order. -/

/-- JSON values, used for request payloads and response bodies. -/
inductive JValue where
  | null
  | bool (b : Bool)
  | num (n : Int)
  | str (s : String)
  | arr (xs : List JValue)
  | obj (fields : List (String × JValue))

/-- A response body as the requests library classifies it: empty content,
non-empty content that response.json decodes to a JSON value, or non-empty
content on which JSON decoding fails.  In the last case response.json raises
requests.exceptions.JSONDecodeError, a RequestException subclass carrying no
attached response. -/
inductive Body where
  | empty
  | json (j : JValue)
  | text (raw : String)

/-- An upstream HTTP response: status code, reason phrase, response headers
and body.  Response headers are looked up case-insensitively, as the
requests CaseInsensitiveDict does. -/
structure Response where
  status_code : Nat
  reason : String
  headers : List (String × String)
  body : Body

/-- An outgoing HTTP request as built by the client: method, url, optional
JSON payload, query parameters, and the header dictionary (header values are
Optional strings, matching the Python attributes they are read from). -/
structure OutRequest where
  method : String
  url : String
  body : Option JValue
  params : List (String × String)
  headers : List (String × Option String)

/-- Outcome of sending one HTTP request: either a response of any status, or
a transport-level failure (connection error or timeout), which in Python is
a RequestException with no attached response. -/
inductive HttpOutcome where
  | success (r : Response)
  | transportError (msg : String)

/-- The upstream oracle: what the network returns for each outgoing
request. -/
abbrev World := OutRequest → HttpOutcome

/-- The mutable fields of CapitalClient, as initialised in __init__. -/
structure ClientState where
  api_url : Option String
  api_key : Option String
  cst : Option String
  security_token : Option String
  account_type : Option String

/-- The environment-dependent part of Config: credentials and the per
environment API keys, read from the process environment at startup.  The two
base URLs are fixed literals in the source, embedded below as API_URLS. -/
structure Config where
  EMAIL : String
  PASSWORD : String
  demo_api_key : String
  real_api_key : String

/-- The fixed API_URLS dictionary of Config.  The source only looks a key up
after validating it against demo and real, so the catch-all branch is never
reached on the validated paths. -/
def API_URLS (account_type : String) : String :=
  if account_type = "demo" then ("https://demo-api-capital.backend-capital.com/api/v1")
  else ("https://api-capital.backend-capital.com/api/v1")

/-- The API_KEYS dictionary of Config, same lookup discipline as
API_URLS. -/
def Config.API_KEYS (cfg : Config) (account_type : String) : String :=
  if account_type = "demo" then cfg.demo_api_key else cfg.real_api_key

/-- Python truthiness of an Optional str: None and the empty string are
falsy, every other string is truthy. -/
def strTruthy : Option String → Bool
  | none => false
  | some s => !s.isEmpty

/-- Python str of an Optional str as an f-string interpolates it. -/
def pyStr : Option String → String
  | none => "None"
  | some s => s

/-- ASCII lower-casing of a character code, for case-insensitive header
comparison. -/
def lowerCode (c : Char) : Nat :=
  if 65 ≤ c.toNat ∧ c.toNat ≤ 90 then c.toNat + 32 else c.toNat

/-- Case-insensitive string comparison on character codes. -/
def strEqCI (a b : String) : Bool :=
  a.data.map lowerCode == b.data.map lowerCode

/-- Case-insensitive lookup in response headers, as the requests
CaseInsensitiveDict get method behaves. -/
def headersGet (hs : List (String × String)) (k : String) : Option String :=
  match hs.find? (fun p => strEqCI p.1 k) with
  | some p => some p.2
  | none => none

/-- Lookup in an outgoing header dictionary by exact key. -/
def sentHeader (hs : List (String × Option String)) (k : String) : Option String :=
  match hs.find? (fun p => p.1 == k) with
  | some p => p.2
  | none => none

/-- Whether the first character list occurs contiguously inside the
second. -/
def listIsInfixOf (pat : List Char) : List Char → Bool
  | [] => pat.isEmpty
  | a :: as => pat.isPrefixOf (a :: as) || listIsInfixOf pat as

/-- Substring test, modelling the Python in operator on str: pat occurs in
s iff the character list of pat is an infix of the character list of s. -/
def strContains (s pat : String) : Bool :=
  listIsInfixOf pat.data s.data

/-- The message of the HTTPError that raise_for_status raises in requests:
status, Client or Server Error, the reason phrase and the url. -/
def http_error_msg (status : Nat) (reason url : String) : String :=
  if status < 500 then
    toString status ++ " Client Error: " ++ reason ++ " for url: " ++ url
  else
    toString status ++ " Server Error: " ++ reason ++ " for url: " ++ url

/-- The str of the JSONDecodeError raised when a non-empty body fails JSON
decoding at the first position; the claims below depend only on this being
an exception message, not on its exact text. -/
def json_decode_error_msg : String := "Expecting value: line 1 column 1 (char 0)"

/-- CapitalClient.select_account: validate the account type against demo and
real; on success store the account type and the matching base url and api
key; on failure return False and change nothing. -/
def select_account (cfg : Config) (s : ClientState) (account_type : String) :
    Bool × ClientState :=
  if account_type = "demo" ∨ account_type = "real" then
    (true, { s with account_type := some account_type,
                    api_url := some (API_URLS account_type),
                    api_key := some (cfg.API_KEYS account_type) })
  else
    (false, s)

/-- The POST session request that CapitalClient.login sends. -/
def login_request (cfg : Config) (s : ClientState) : OutRequest :=
  { method := "POST",
    url := pyStr s.api_url ++ "/session",
    body := some (JValue.obj
      [("identifier", JValue.str cfg.EMAIL),
       ("password", JValue.str cfg.PASSWORD),
       ("encryptedPassword", JValue.bool false)]),
    params := [],
    headers := [("Content-Type", some ("application/json")),
                ("X-CAP-API-KEY", s.api_key)] }

/-- CapitalClient.login: bail out with (None, None) when api_url or api_key
is falsy; otherwise POST the credentials to the session endpoint.  A
transport failure or a non-200 status returns (None, None) without touching
the state; a 200 status unconditionally stores whatever CST and
X-SECURITY-TOKEN response headers are present (possibly None) and returns
them.  The result is ((returned pair, new state), sent requests). -/
def login (cfg : Config) (w : World) (s : ClientState) :
    ((Option String × Option String) × ClientState) × List OutRequest :=
  if !strTruthy s.api_url || !strTruthy s.api_key then
    (((none, none), s), [])
  else
    match w (login_request cfg s) with
    | HttpOutcome.transportError _ => (((none, none), s), [login_request cfg s])
    | HttpOutcome.success r =>
      if r.status_code ≠ 200 then
        (((none, none), s), [login_request cfg s])
      else
        (((headersGet r.headers ("CST"), headersGet r.headers ("X-SECURITY-TOKEN")),
          { s with cst := headersGet r.headers ("CST"),
                   security_token := headersGet r.headers ("X-SECURITY-TOKEN") }),
         [login_request cfg s])

/-- CapitalClient.get_headers: exactly the content type, the two cached
session tokens and the static api key of the active environment. -/
def get_headers (s : ClientState) : List (String × Option String) :=
  [("Content-Type", some ("application/json")),
   ("X-SECURITY-TOKEN", s.security_token),
   ("CST", s.cst),
   ("X-CAP-API-KEY", s.api_key)]

/-- The request that the dispatcher body of api_request sends: the endpoint
appended to the active base url, the payload and parameters, and
get_headers. -/
def main_request (s : ClientState) (method endpoint : String)
    (data : Option JValue) (params : List (String × String)) : OutRequest :=
  { method := method,
    url := pyStr s.api_url ++ "/" ++ endpoint,
    body := data,
    params := params,
    headers := get_headers s }

/-- The dictionary api_request returns: a parsed JSON body, the synthetic
success marker (status SUCCESS), the authentication-required error
dictionary, or the exception error dictionary carrying str(e) and the
optional upstream status code. -/
inductive DispatchResult where
  | json (j : JValue)
  | successMarker
  | authRequired
  | errorDict (msg : String) (status_code : Option Nat)

/-- The try block of api_request: send the call; raise_for_status turns any
4xx or 5xx into an HTTPError whose str and attached status feed the error
dictionary; a transport failure has no attached response (status_code None);
otherwise an empty body gives the success marker, a decodable body gives the
parsed JSON, and a non-decodable body raises JSONDecodeError, caught by the
same except clause with no attached response. -/
def dispatch_call (w : World) (s : ClientState) (method endpoint : String)
    (data : Option JValue) (params : List (String × String)) :
    DispatchResult × List OutRequest :=
  match w (main_request s method endpoint data params) with
  | HttpOutcome.transportError m =>
      (DispatchResult.errorDict m none, [main_request s method endpoint data params])
  | HttpOutcome.success r =>
      if 400 ≤ r.status_code ∧ r.status_code < 600 then
        (DispatchResult.errorDict
           (http_error_msg r.status_code r.reason (main_request s method endpoint data params).url)
           (some r.status_code),
         [main_request s method endpoint data params])
      else
        match r.body with
        | Body.empty =>
            (DispatchResult.successMarker, [main_request s method endpoint data params])
        | Body.json j =>
            (DispatchResult.json j, [main_request s method endpoint data params])
        | Body.text _ =>
            (DispatchResult.errorDict json_decode_error_msg none,
             [main_request s method endpoint data params])

/-- The tail of api_request after a login was performed: re-check the stored
tokens; if either is still falsy, return the authentication-required error
dictionary without sending the call, else dispatch it. -/
def after_login (w : World) (s1 : ClientState) (tr1 : List OutRequest)
    (method endpoint : String) (data : Option JValue)
    (params : List (String × String)) :
    (DispatchResult × ClientState) × List OutRequest :=
  if !strTruthy s1.cst || !strTruthy s1.security_token then
    ((DispatchResult.authRequired, s1), tr1)
  else
    (((dispatch_call w s1 method endpoint data params).1, s1),
     tr1 ++ (dispatch_call w s1 method endpoint data params).2)

/-- CapitalClient.api_request: when either token is falsy, perform one login
and re-check; when both tokens are available, build the call with
get_headers and send it through the try block.  The result is
((returned dictionary, new state), sent requests). -/
def api_request (cfg : Config) (w : World) (s0 : ClientState)
    (method endpoint : String) (data : Option JValue)
    (params : List (String × String)) :
    (DispatchResult × ClientState) × List OutRequest :=
  if !strTruthy s0.cst || !strTruthy s0.security_token then
    after_login w (login cfg w s0).1.2 (login cfg w s0).2 method endpoint data params
  else
    (((dispatch_call w s0 method endpoint data params).1, s0),
     (dispatch_call w s0 method endpoint data params).2)

/-- The tail of validate_and_auth after select_account succeeded: when a
token is missing, login once and test the returned pair; a falsy pair gives
the Authentication failed error with local status 401. -/
def va_after_select (cfg : Config) (w : World) (s1 : ClientState) :
    ((Bool × Option String × Nat) × ClientState) × List OutRequest :=
  if !strTruthy s1.cst || !strTruthy s1.security_token then
    if !strTruthy (login cfg w s1).1.1.1 || !strTruthy (login cfg w s1).1.1.2 then
      (((false, some ("Authentication failed"), 401), (login cfg w s1).1.2),
       (login cfg w s1).2)
    else
      (((true, none, 200), (login cfg w s1).1.2), (login cfg w s1).2)
  else
    (((true, none, 200), s1), [])

/-- validate_and_auth: select the account, then ensure a token pair exists,
returning (success, optional error message, local status). -/
def validate_and_auth (cfg : Config) (w : World) (s : ClientState)
    (account_type : String) :
    ((Bool × Option String × Nat) × ClientState) × List OutRequest :=
  if !(select_account cfg s account_type).1 then
    (((false, some ("Invalid account type"), 400), (select_account cfg s account_type).2), [])
  else
    va_after_select cfg w (select_account cfg s account_type).2

/-- Python in on the value api_request returned, for the key error: a dict
checks its keys, a list checks membership of the string, a string checks for
a substring; on any other value the in operator raises TypeError (None). -/
def pyInJson (key : String) : JValue → Option Bool
  | JValue.obj fields => some (fields.any (fun p => p.1 == key))
  | JValue.arr xs =>
      some (xs.any (fun v => match v with
        | JValue.str t => t == key
        | _ => false))
  | JValue.str t => some (strContains t key)
  | _ => none

/-- The route-level test (error in result) on each possible dispatcher
return value. -/
def errorKeyCheck : DispatchResult → Option Bool
  | DispatchResult.errorDict _ _ => some true
  | DispatchResult.authRequired => some true
  | DispatchResult.successMarker => some false
  | DispatchResult.json j => pyInJson ("error") j

/-- What a route handler sends back: an early validation response, the
dispatched result with the chosen local status, or an uncaught TypeError
from the in test. -/
inductive RouteOutcome where
  | early (msg : Option String) (status : Nat)
  | dispatched (result : DispatchResult) (status : Nat)
  | typeErrorCrash

/-- The dispatch half of the get_positions handler: run the dispatcher and
answer with local status 400 when the result has an error key, 200
otherwise. -/
def gp_dispatch (cfg : Config) (w : World) (s1 : ClientState) :
    RouteOutcome × ClientState :=
  match errorKeyCheck (api_request cfg w s1 ("GET") ("positions") none []).1.1 with
  | some b =>
      (RouteOutcome.dispatched (api_request cfg w s1 ("GET") ("positions") none []).1.1
         (if b then 400 else 200),
       (api_request cfg w s1 ("GET") ("positions") none []).1.2)
  | none =>
      (RouteOutcome.typeErrorCrash, (api_request cfg w s1 ("GET") ("positions") none []).1.2)

/-- The get_positions route handler: validate_and_auth, then dispatch GET
positions and shape the local status. -/
def get_positions (cfg : Config) (w : World) (s : ClientState)
    (account_type : String) : RouteOutcome × ClientState :=
  if !(validate_and_auth cfg w s account_type).1.1.1 then
    (RouteOutcome.early (validate_and_auth cfg w s account_type).1.1.2.1
       (validate_and_auth cfg w s account_type).1.1.2.2,
     (validate_and_auth cfg w s account_type).1.2)
  else
    gp_dispatch cfg w (validate_and_auth cfg w s account_type).1.2

/- Concrete fixtures for witnesses and counterexamples. -/

/-- A concrete configuration. -/
def cfgEx : Config :=
  { EMAIL := "user@example.com", PASSWORD := "hunter2",
    demo_api_key := "demo-key", real_api_key := "real-key" }

/-- The freshly constructed client. -/
def s0 : ClientState :=
  { api_url := none, api_key := none, cst := none,
    security_token := none, account_type := none }

/-- Client with the demo environment selected and no tokens cached. -/
def sSel : ClientState :=
  { api_url := some (API_URLS ("demo")), api_key := some ("demo-key"),
    cst := none, security_token := none, account_type := some ("demo") }

/-- Client with the demo environment selected and tokens abc and xyz
cached. -/
def sTok : ClientState :=
  { api_url := some (API_URLS ("demo")), api_key := some ("demo-key"),
    cst := some ("abc"), security_token := some ("xyz"),
    account_type := some ("demo") }

/-- Client with the demo environment selected and a previously cached pair
old1 and old2. -/
def sOld : ClientState :=
  { api_url := some (API_URLS ("demo")), api_key := some ("demo-key"),
    cst := some ("old1"), security_token := some ("old2"),
    account_type := some ("demo") }

/-- A 200 session response carrying both token headers abc and xyz. -/
def respLoginOk : Response :=
  { status_code := 200, reason := "OK",
    headers := [("CST", "abc"), ("X-SECURITY-TOKEN", "xyz")],
    body := Body.empty }

/-- A 200 response whose body is the JSON object with an empty positions
array. -/
def respPositions : Response :=
  { status_code := 200, reason := "OK", headers := [],
    body := Body.json (JValue.obj [("positions", JValue.arr [])]) }

/-- A 200 session response carrying only the CST header new1, missing
X-SECURITY-TOKEN. -/
def respMissing : Response :=
  { status_code := 200, reason := "OK", headers := [("CST", "new1")],
    body := Body.empty }

/-- A 401 response. -/
def resp401 : Response :=
  { status_code := 401, reason := "Unauthorized", headers := [],
    body := Body.empty }

/-- A 403 response whose JSON body carries an upstream error code. -/
def resp403 : Response :=
  { status_code := 403, reason := "Forbidden",
    headers := [("Content-Type", "application/json")],
    body := Body.json (JValue.obj [("errorCode", JValue.str ("error.invalid.details"))]) }

/-- A 500 response. -/
def resp500 : Response :=
  { status_code := 500, reason := "Internal Server Error", headers := [],
    body := Body.empty }

/-- A 503 response. -/
def resp503 : Response :=
  { status_code := 503, reason := "Service Unavailable", headers := [],
    body := Body.empty }

/-- A 200 response of content type text plain whose non-empty body OK is not
valid JSON. -/
def respText : Response :=
  { status_code := 200, reason := "OK",
    headers := [("Content-Type", "text/plain")],
    body := Body.text ("OK") }

/-- Upstream answering every request with the token-bearing 200 session
response. -/
def wLoginOk : World := fun _ => HttpOutcome.success respLoginOk

/-- Upstream answering POSTs with the token-bearing session response and
everything else with the positions body. -/
def wPositions : World := fun req =>
  if req.method = "POST" then HttpOutcome.success respLoginOk
  else HttpOutcome.success respPositions

/-- Upstream answering every request with the 200 response that lacks the
X-SECURITY-TOKEN header. -/
def wMissingTok : World := fun _ => HttpOutcome.success respMissing

/-- Upstream answering every request with 401. -/
def w401 : World := fun _ => HttpOutcome.success resp401

/-- Upstream answering every request with the 403 JSON error body. -/
def w403 : World := fun _ => HttpOutcome.success resp403

/-- Upstream answering every request with 500. -/
def w500 : World := fun _ => HttpOutcome.success resp500

/-- Upstream answering every request with 503. -/
def w503 : World := fun _ => HttpOutcome.success resp503

/-- Upstream answering every request with the non-JSON 200 body. -/
def wText : World := fun _ => HttpOutcome.success respText

/- Helper lemmas shared by the claim theorems. -/

/-- When the environment is missing, login returns without sending
anything. -/
theorem login_no_env (cfg : Config) (w : World) (s : ClientState)
    (h : (!strTruthy s.api_url || !strTruthy s.api_key) = true) :
    login cfg w s = (((none, none), s), []) := by
  unfold login
  simp [h]

/-- A transport failure during login leaves the state untouched. -/
theorem login_transport (cfg : Config) (w : World) (s : ClientState) (m : String)
    (hurl : strTruthy s.api_url = true) (hkey : strTruthy s.api_key = true)
    (h : w (login_request cfg s) = HttpOutcome.transportError m) :
    login cfg w s = (((none, none), s), [login_request cfg s]) := by
  unfold login
  simp [hurl, hkey, h]

/-- A non-200 login response leaves the state untouched. -/
theorem login_non200 (cfg : Config) (w : World) (s : ClientState) (r : Response)
    (hurl : strTruthy s.api_url = true) (hkey : strTruthy s.api_key = true)
    (h : w (login_request cfg s) = HttpOutcome.success r)
    (h2 : r.status_code ≠ 200) :
    login cfg w s = (((none, none), s), [login_request cfg s]) := by
  unfold login
  simp [hurl, hkey, h, h2]

/-- A 200 login response unconditionally stores whatever token headers are
present. -/
theorem login_200 (cfg : Config) (w : World) (s : ClientState) (r : Response)
    (hurl : strTruthy s.api_url = true) (hkey : strTruthy s.api_key = true)
    (h : w (login_request cfg s) = HttpOutcome.success r)
    (h2 : r.status_code = 200) :
    login cfg w s =
      (((headersGet r.headers ("CST"), headersGet r.headers ("X-SECURITY-TOKEN")),
        { s with cst := headersGet r.headers ("CST"),
                 security_token := headersGet r.headers ("X-SECURITY-TOKEN") }),
       [login_request cfg s]) := by
  unfold login
  simp [hurl, hkey, h, h2]

/-- With both tokens cached, api_request skips the login and goes straight to
the dispatch. -/
theorem api_request_cached (cfg : Config) (w : World) (s : ClientState)
    (method endpoint : String) (data : Option JValue)
    (params : List (String × String))
    (hc : strTruthy s.cst = true) (ht : strTruthy s.security_token = true) :
    api_request cfg w s method endpoint data params =
      (((dispatch_call w s method endpoint data params).1, s),
       (dispatch_call w s method endpoint data params).2) := by
  unfold api_request
  simp [hc, ht]

/-- With a token missing, api_request performs the login and continues with
the updated state. -/
theorem api_request_unauth (cfg : Config) (w : World) (s : ClientState)
    (method endpoint : String) (data : Option JValue)
    (params : List (String × String))
    (htok : (!strTruthy s.cst || !strTruthy s.security_token) = true) :
    api_request cfg w s method endpoint data params =
      after_login w (login cfg w s).1.2 (login cfg w s).2 method endpoint data params := by
  unfold api_request
  simp [htok]

/-- A response with a 4xx or 5xx status makes the dispatch return the
HTTPError dictionary and leaves everything else alone. -/
theorem dispatch_call_http_error (w : World) (s : ClientState)
    (method endpoint : String) (data : Option JValue)
    (params : List (String × String)) (r : Response)
    (hr : w (main_request s method endpoint data params) = HttpOutcome.success r)
    (h4 : 400 ≤ r.status_code) (h6 : r.status_code < 600) :
    dispatch_call w s method endpoint data params =
      (DispatchResult.errorDict
         (http_error_msg r.status_code r.reason (main_request s method endpoint data params).url)
         (some r.status_code),
       [main_request s method endpoint data params]) := by
  unfold dispatch_call
  simp [hr, h4, h6]

/-- A transport failure makes the dispatch return the bare error dictionary
with no status code. -/
theorem dispatch_call_transport (w : World) (s : ClientState)
    (method endpoint : String) (data : Option JValue)
    (params : List (String × String)) (m : String)
    (hr : w (main_request s method endpoint data params) = HttpOutcome.transportError m) :
    dispatch_call w s method endpoint data params =
      (DispatchResult.errorDict m none, [main_request s method endpoint data params]) := by
  unfold dispatch_call
  simp [hr]

/-- A successful response is relayed according to its body. -/
theorem dispatch_call_success (w : World) (s : ClientState)
    (method endpoint : String) (data : Option JValue)
    (params : List (String × String)) (r : Response)
    (hr : w (main_request s method endpoint data params) = HttpOutcome.success r)
    (hlt : r.status_code < 400) :
    dispatch_call w s method endpoint data params =
      ((match r.body with
        | Body.empty => DispatchResult.successMarker
        | Body.json j => DispatchResult.json j
        | Body.text _ => DispatchResult.errorDict json_decode_error_msg none),
       [main_request s method endpoint data params]) := by
  unfold dispatch_call
  have h4 : ¬(400 ≤ r.status_code ∧ r.status_code < 600) := by omega
  simp [hr, h4]
  cases r.body with
  | empty => rfl
  | json j => rfl
  | text raw => rfl

/- Claim theorems. -/

/-- Claim C8: the environment selector accepts only the two enumerated
account types.  On a valid value it returns True and stores the matching
base url, api key and account type while leaving the cached tokens as they
were; on any other value it returns False and leaves the whole client state
unchanged, with no partial mutation. -/
theorem c8_selector (cfg : Config) (s : ClientState) (a : String) :
    ((a = "demo" ∨ a = "real") →
      (select_account cfg s a).1 = true ∧
      (select_account cfg s a).2.api_url = some (API_URLS a) ∧
      (select_account cfg s a).2.api_key = some (cfg.API_KEYS a) ∧
      (select_account cfg s a).2.account_type = some a ∧
      (select_account cfg s a).2.cst = s.cst ∧
      (select_account cfg s a).2.security_token = s.security_token) ∧
    ((a ≠ "demo" ∧ a ≠ "real") → select_account cfg s a = (false, s)) := by
  constructor
  · intro h
    simp [select_account, h]
  · intro h
    have hn : ¬(a = "demo" ∨ a = "real") := by
      intro hor
      rcases hor with h1 | h2
      · exact h.1 h1
      · exact h.2 h2
    simp [select_account, hn]

/-- Witness for C8 at the concrete inputs bogus and demo. -/
theorem c8_selector_witness :
    select_account cfgEx sTok ("bogus") = (false, sTok) ∧
    (select_account cfgEx sTok ("demo")).1 = true :=
  ⟨(c8_selector cfgEx sTok ("bogus")).2 (by decide),
   ((c8_selector cfgEx sTok ("demo")).1 (Or.inl rfl)).1⟩

/-- Claim C2 (code behaviour at the failing input): after selecting demo, a
successful login that caches the pair abc and xyz, and then selecting real,
the demo tokens are still cached, and the next dispatched call under real
would send the demo CST.  The source select_account never touches cst or
security_token, so switching environments does not invalidate the pair the
claim says it must. -/
theorem c2_tokens_survive_switch :
    (select_account cfgEx (login cfgEx wLoginOk (select_account cfgEx s0 ("demo")).2).1.2
        ("real")).2.cst = some ("abc") ∧
    (select_account cfgEx (login cfgEx wLoginOk (select_account cfgEx s0 ("demo")).2).1.2
        ("real")).2.security_token = some ("xyz") ∧
    (select_account cfgEx (login cfgEx wLoginOk (select_account cfgEx s0 ("demo")).2).1.2
        ("real")).2.account_type = some ("real") ∧
    sentHeader
      (main_request
        (select_account cfgEx (login cfgEx wLoginOk (select_account cfgEx s0 ("demo")).2).1.2
          ("real")).2 ("GET") ("positions") none []).headers ("CST") = some ("abc") := by
  refine ⟨by decide, by decide, by decide, by decide⟩

/-- Claim C9 counterexample: with the pair old1 and old2 cached, a login
answered 200 with only a CST header new1 is a failed authentication (the
pair it returns is not complete), yet the client state is partially
overwritten: cst becomes new1 and security_token is cleared, so the
previously cached pair is not left intact. -/
theorem c9_counterexample :
    sOld.cst = some ("old1") ∧ sOld.security_token = some ("old2") ∧
    (login cfgEx wMissingTok sOld).1.1 = (some ("new1"), none) ∧
    (login cfgEx wMissingTok sOld).1.2.cst = some ("new1") ∧
    (login cfgEx wMissingTok sOld).1.2.security_token = none := by
  refine ⟨by decide, by decide, by decide, by decide, by decide⟩

/-- Claim C9 as amended: login is atomic on transport failures and on
non-200 responses (the client state is returned unchanged), but on any 200
response it unconditionally overwrites both token fields with whatever token
headers the response carries, so a 200 response lacking a token header
partially or wholly clobbers a previously cached pair. -/
theorem c9_login_effects (cfg : Config) (w : World) (s : ClientState) :
    (∀ m, w (login_request cfg s) = HttpOutcome.transportError m →
      (login cfg w s).1.2 = s) ∧
    (∀ r, w (login_request cfg s) = HttpOutcome.success r → r.status_code ≠ 200 →
      (login cfg w s).1.2 = s) ∧
    (∀ r, strTruthy s.api_url = true → strTruthy s.api_key = true →
      w (login_request cfg s) = HttpOutcome.success r → r.status_code = 200 →
      (login cfg w s).1.2 =
        { s with cst := headersGet r.headers ("CST"),
                 security_token := headersGet r.headers ("X-SECURITY-TOKEN") }) := by
  refine ⟨?_, ?_, ?_⟩
  · intro m hw
    cases hu : strTruthy s.api_url with
    | false => rw [login_no_env cfg w s (by simp [hu])]
    | true =>
      cases hk : strTruthy s.api_key with
      | false => rw [login_no_env cfg w s (by simp [hk])]
      | true => rw [login_transport cfg w s m hu hk hw]
  · intro r hw h2
    cases hu : strTruthy s.api_url with
    | false => rw [login_no_env cfg w s (by simp [hu])]
    | true =>
      cases hk : strTruthy s.api_key with
      | false => rw [login_no_env cfg w s (by simp [hk])]
      | true => rw [login_non200 cfg w s r hu hk hw h2]
  · intro r hurl hkey hw h2
    rw [login_200 cfg w s r hurl hkey hw h2]

/-- Witness for the amended C9 at the concrete input: a 200 login response
carrying only CST new1 replaces the cached pair old1 and old2 by new1 and
None. -/
theorem c9_login_effects_witness :
    (login cfgEx wMissingTok sOld).1.2 =
      { sOld with cst := some ("new1"), security_token := none } := by
  have h := (c9_login_effects cfgEx wMissingTok sOld).2.2 respMissing (by decide) (by decide) rfl rfl
  rw [h]
  rfl

/-- Under a selected environment, a login sends exactly the one session
request. -/
theorem login_trace_single (cfg : Config) (w : World) (s : ClientState)
    (hurl : strTruthy s.api_url = true) (hkey : strTruthy s.api_key = true) :
    (login cfg w s).2 = [login_request cfg s] := by
  cases hw : w (login_request cfg s) with
  | transportError m => rw [login_transport cfg w s m hurl hkey hw]
  | success r =>
    by_cases h2 : r.status_code = 200
    · rw [login_200 cfg w s r hurl hkey hw h2]
    · rw [login_non200 cfg w s r hurl hkey hw h2]

/-- The dispatch sends exactly one request, whatever the outcome. -/
theorem dispatch_trace_single (w : World) (s : ClientState)
    (method endpoint : String) (data : Option JValue)
    (params : List (String × String)) :
    (dispatch_call w s method endpoint data params).2 =
      [main_request s method endpoint data params] := by
  unfold dispatch_call
  cases hw : w (main_request s method endpoint data params) with
  | transportError m => rfl
  | success r =>
    by_cases h4 : 400 ≤ r.status_code ∧ r.status_code < 600
    · simp [h4]
    · simp [h4]
      cases r.body <;> rfl

/-- When the post-login re-check still misses a token, api_request answers
the authentication-required dictionary without dispatching. -/
theorem after_login_auth_fail (w : World) (s1 : ClientState)
    (tr1 : List OutRequest) (method endpoint : String) (data : Option JValue)
    (params : List (String × String))
    (hb : (!strTruthy s1.cst || !strTruthy s1.security_token) = true) :
    after_login w s1 tr1 method endpoint data params =
      ((DispatchResult.authRequired, s1), tr1) := by
  unfold after_login
  simp [hb]

/-- When the post-login re-check passes, api_request dispatches the call. -/
theorem after_login_ok (w : World) (s1 : ClientState)
    (tr1 : List OutRequest) (method endpoint : String) (data : Option JValue)
    (params : List (String × String))
    (hb : (!strTruthy s1.cst || !strTruthy s1.security_token) = false) :
    after_login w s1 tr1 method endpoint data params =
      (((dispatch_call w s1 method endpoint data params).1, s1),
       tr1 ++ (dispatch_call w s1 method endpoint data params).2) := by
  unfold after_login
  simp [hb]

/-- The dispatched request carries the cached CST in its headers. -/
theorem main_request_cst (s : ClientState) (m e : String) (d : Option JValue)
    (p : List (String × String)) :
    sentHeader (main_request s m e d p).headers ("CST") = s.cst := rfl

/-- The dispatched request carries the cached X-SECURITY-TOKEN in its
headers. -/
theorem main_request_xst (s : ClientState) (m e : String) (d : Option JValue)
    (p : List (String × String)) :
    sentHeader (main_request s m e d p).headers ("X-SECURITY-TOKEN") = s.security_token := rfl

/-- Claim C3: if the login receives a 200 response without both token
headers, the dispatcher fails with the authentication error dictionary and
no downstream call is attempted: the only request sent is the session
POST. -/
theorem c3_missing_login_headers (cfg : Config) (w : World) (s : ClientState)
    (method endpoint : String) (data : Option JValue)
    (params : List (String × String)) (r : Response)
    (htok : (!strTruthy s.cst || !strTruthy s.security_token) = true)
    (hurl : strTruthy s.api_url = true) (hkey : strTruthy s.api_key = true)
    (hw : w (login_request cfg s) = HttpOutcome.success r)
    (h200 : r.status_code = 200)
    (hmiss : headersGet r.headers ("CST") = none ∨
             headersGet r.headers ("X-SECURITY-TOKEN") = none) :
    (api_request cfg w s method endpoint data params).1.1 = DispatchResult.authRequired ∧
    (api_request cfg w s method endpoint data params).2 = [login_request cfg s] := by
  rw [api_request_unauth cfg w s method endpoint data params htok]
  rw [login_200 cfg w s r hurl hkey hw h200]
  unfold after_login
  rcases hmiss with h | h
  · simp [h, strTruthy]
  · simp [h, strTruthy]

/-- Witness for C3: a demo-selected client with no tokens, against an
upstream whose 200 session response lacks X-SECURITY-TOKEN. -/
theorem c3_missing_login_headers_witness :
    (api_request cfgEx wMissingTok sSel ("GET") ("positions") none []).1.1 =
      DispatchResult.authRequired ∧
    (api_request cfgEx wMissingTok sSel ("GET") ("positions") none []).2 =
      [login_request cfgEx sSel] :=
  c3_missing_login_headers cfgEx wMissingTok sSel ("GET") ("positions") none [] respMissing
    (by decide) (by decide) (by decide) rfl (by decide) (Or.inr (by decide))

/-- Claim C4: when no token pair is cached (and an environment is selected),
the dispatcher performs exactly one authentication first: the session POST
is the first request sent; if that login leaves a token missing, the
dispatcher returns the authentication error dictionary and the session POST
is the only request sent; and every request other than the session POST
carries truthy CST and X-SECURITY-TOKEN headers. -/
theorem c4_auth_before_call (cfg : Config) (w : World) (s : ClientState)
    (method endpoint : String) (data : Option JValue)
    (params : List (String × String))
    (htok : (!strTruthy s.cst || !strTruthy s.security_token) = true)
    (hurl : strTruthy s.api_url = true) (hkey : strTruthy s.api_key = true) :
    ((api_request cfg w s method endpoint data params).2.head? =
      some (login_request cfg s)) ∧
    ((!strTruthy (login cfg w s).1.2.cst ||
        !strTruthy (login cfg w s).1.2.security_token) = true →
      (api_request cfg w s method endpoint data params).1.1 = DispatchResult.authRequired ∧
      (api_request cfg w s method endpoint data params).2 = [login_request cfg s]) ∧
    (∀ req, req ∈ (api_request cfg w s method endpoint data params).2 →
      req ≠ login_request cfg s →
      strTruthy (sentHeader req.headers ("CST")) = true ∧
      strTruthy (sentHeader req.headers ("X-SECURITY-TOKEN")) = true) := by
  rw [api_request_unauth cfg w s method endpoint data params htok]
  have htr := login_trace_single cfg w s hurl hkey
  cases hb : (!strTruthy (login cfg w s).1.2.cst ||
      !strTruthy (login cfg w s).1.2.security_token) with
  | true =>
    rw [after_login_auth_fail w _ _ method endpoint data params hb, htr]
    refine ⟨rfl, fun _ => ⟨rfl, rfl⟩, ?_⟩
    intro req hmem hneq
    simp at hmem
    exact absurd hmem hneq
  | false =>
    rw [after_login_ok w _ _ method endpoint data params hb, htr,
        dispatch_trace_single w _ method endpoint data params]
    have hpair := hb
    simp at hpair
    refine ⟨rfl, ?_, ?_⟩
    · intro hcontra
      exact Bool.noConfusion hcontra
    · intro req hmem hneq
      simp at hmem
      rcases hmem with h | h
      · exact absurd h hneq
      · subst h
        rw [main_request_cst, main_request_xst]
        exact ⟨hpair.1, hpair.2⟩

/-- Witness for C4: the unauthenticated call against the upstream whose 200
session response lacks a token header returns the authentication error
after the single session POST. -/
theorem c4_auth_before_call_witness :
    (api_request cfgEx wMissingTok sSel ("GET") ("accounts") none []).1.1 =
      DispatchResult.authRequired ∧
    (api_request cfgEx wMissingTok sSel ("GET") ("accounts") none []).2 =
      [login_request cfgEx sSel] :=
  (c4_auth_before_call cfgEx wMissingTok sSel ("GET") ("accounts") none []
    (by decide) (by decide) (by decide)).2.1 (by decide)

/-- Claim C1 counterexample: with the pair abc and xyz cached, a dispatched
call answered 401 returns the HTTPError dictionary with status_code 401, the
client state (including the cached pair) is unchanged, and exactly one
request was sent in total: there is no invalidation, no re-authentication
and no retry, contrary to the claimed single
invalidate-reauthenticate-retry cycle. -/
theorem c1_counterexample :
    (api_request cfgEx w401 sTok ("GET") ("positions") none []).1.1 =
      DispatchResult.errorDict
        ("401 Client Error: Unauthorized for url: https://demo-api-capital.backend-capital.com/api/v1/positions")
        (some 401) ∧
    (api_request cfgEx w401 sTok ("GET") ("positions") none []).1.2 = sTok ∧
    (api_request cfgEx w401 sTok ("GET") ("positions") none []).2.length = 1 :=
  ⟨rfl, rfl, rfl⟩

/-- Claim C1 as amended: on a 401 response the dispatcher performs no
invalidation, no re-authentication and no retry; it returns the error
dictionary carrying the HTTPError message and status_code 401, leaves the
client state unchanged, and the failing call is the only request sent. -/
theorem c1_no_retry_on_401 (cfg : Config) (w : World) (s : ClientState)
    (method endpoint : String) (data : Option JValue)
    (params : List (String × String)) (r : Response)
    (hc : strTruthy s.cst = true) (ht : strTruthy s.security_token = true)
    (hr : w (main_request s method endpoint data params) = HttpOutcome.success r)
    (h401 : r.status_code = 401) :
    (api_request cfg w s method endpoint data params).1.1 =
      DispatchResult.errorDict
        (http_error_msg 401 r.reason (main_request s method endpoint data params).url)
        (some 401) ∧
    (api_request cfg w s method endpoint data params).1.2 = s ∧
    (api_request cfg w s method endpoint data params).2 =
      [main_request s method endpoint data params] := by
  rw [api_request_cached cfg w s method endpoint data params hc ht,
      dispatch_call_http_error w s method endpoint data params r hr (by omega) (by omega)]
  rw [h401]
  exact ⟨rfl, rfl, rfl⟩

/-- Witness for the amended C1 at the concrete 401 input. -/
theorem c1_no_retry_on_401_witness :
    (api_request cfgEx w401 sTok ("GET") ("positions") none []).1.2 = sTok ∧
    (api_request cfgEx w401 sTok ("GET") ("positions") none []).2 =
      [main_request sTok ("GET") ("positions") none []] := by
  have h := c1_no_retry_on_401 cfgEx w401 sTok ("GET") ("positions") none [] resp401
    (by decide) (by decide) rfl rfl
  exact ⟨h.2.1, h.2.2⟩

/-- Claim C5 counterexample: a dispatched call answered 403 with the JSON
body field errorCode equal to error.invalid.details yields the error
dictionary whose message is the HTTPError string; that message does not
contain the error code of the body, so the message is not obtained by
parsing the JSON error body (nor is it the raw body text). -/
theorem c5_counterexample :
    (api_request cfgEx w403 sTok ("GET") ("positions") none []).1.1 =
      DispatchResult.errorDict
        ("403 Client Error: Forbidden for url: https://demo-api-capital.backend-capital.com/api/v1/positions")
        (some 403) ∧
    strContains
      ("403 Client Error: Forbidden for url: https://demo-api-capital.backend-capital.com/api/v1/positions")
      ("error.invalid.details") = false :=
  ⟨rfl, rfl⟩

/-- Claim C5 as amended: for every dispatched call whose response status is
at least 400 (401 included, there being no retry case), the dispatcher
returns an error dictionary whose message is the HTTPError string built from
status, reason and url, and whose status_code is the upstream status; the
JSON error body is never parsed.  On a transport failure with no response,
the message is the exception text and status_code is None. -/
theorem c5_error_dictionary (cfg : Config) (w : World) (s : ClientState)
    (method endpoint : String) (data : Option JValue)
    (params : List (String × String))
    (hc : strTruthy s.cst = true) (ht : strTruthy s.security_token = true) :
    (∀ r, w (main_request s method endpoint data params) = HttpOutcome.success r →
      400 ≤ r.status_code → r.status_code < 600 →
      (api_request cfg w s method endpoint data params).1.1 =
        DispatchResult.errorDict
          (http_error_msg r.status_code r.reason (main_request s method endpoint data params).url)
          (some r.status_code)) ∧
    (∀ m, w (main_request s method endpoint data params) = HttpOutcome.transportError m →
      (api_request cfg w s method endpoint data params).1.1 =
        DispatchResult.errorDict m none) := by
  constructor
  · intro r hr h4 h6
    rw [api_request_cached cfg w s method endpoint data params hc ht,
        dispatch_call_http_error w s method endpoint data params r hr h4 h6]
  · intro m hr
    rw [api_request_cached cfg w s method endpoint data params hc ht,
        dispatch_call_transport w s method endpoint data params m hr]

/-- Witness for the amended C5 at the concrete 403 input. -/
theorem c5_error_dictionary_witness :
    (api_request cfgEx w403 sTok ("GET") ("positions") none []).1.1 =
      DispatchResult.errorDict
        ("403 Client Error: Forbidden for url: https://demo-api-capital.backend-capital.com/api/v1/positions")
        (some 403) := by
  have h := (c5_error_dictionary cfgEx w403 sTok ("GET") ("positions") none []
    (by decide) (by decide)).1 resp403 rfl (by decide) (by decide)
  exact h

/-- Claim C6 counterexample: a 200 response of content type text plain with
the non-JSON body OK makes the dispatcher return the JSON-decode error
dictionary, not the raw response text the claim promises. -/
theorem c6_counterexample :
    (api_request cfgEx wText sTok ("GET") ("positions") none []).1.1 =
      DispatchResult.errorDict json_decode_error_msg none :=
  rfl

/-- Claim C6 as amended: for every successful dispatched call (status below
400), an empty body returns the synthetic success marker; a non-empty body
is always fed to the JSON parser regardless of content type, a decodable
body returning the parsed value and a non-decodable one the JSON-decode
error dictionary, never the raw text. -/
theorem c6_success_body_handling (cfg : Config) (w : World) (s : ClientState)
    (method endpoint : String) (data : Option JValue)
    (params : List (String × String)) (r : Response)
    (hc : strTruthy s.cst = true) (ht : strTruthy s.security_token = true)
    (hr : w (main_request s method endpoint data params) = HttpOutcome.success r)
    (hlt : r.status_code < 400) :
    (r.body = Body.empty →
      (api_request cfg w s method endpoint data params).1.1 = DispatchResult.successMarker) ∧
    (∀ j, r.body = Body.json j →
      (api_request cfg w s method endpoint data params).1.1 = DispatchResult.json j) ∧
    (∀ raw, r.body = Body.text raw →
      (api_request cfg w s method endpoint data params).1.1 =
        DispatchResult.errorDict json_decode_error_msg none) := by
  rw [api_request_cached cfg w s method endpoint data params hc ht,
      dispatch_call_success w s method endpoint data params r hr hlt]
  refine ⟨?_, ?_, ?_⟩
  · intro h
    rw [h]
  · intro j h
    rw [h]
  · intro raw h
    rw [h]

/-- Witness for the amended C6: the decodable positions body is relayed
parsed. -/
theorem c6_success_body_handling_witness :
    (api_request cfgEx wPositions sTok ("GET") ("positions") none []).1.1 =
      DispatchResult.json (JValue.obj [("positions", JValue.arr [])]) := by
  have h := (c6_success_body_handling cfgEx wPositions sTok ("GET") ("positions") none []
    respPositions (by decide) (by decide) rfl (by decide)).2.1
  exact h (JValue.obj [("positions", JValue.arr [])]) rfl

/-- Claim C7: an authenticated dispatched call carries exactly the four
headers content type, X-SECURITY-TOKEN, CST and X-CAP-API-KEY with the
cached and configured values, and a 200 JSON response is relayed to the
caller unchanged, with exactly one request sent. -/
theorem c7_headers_and_relay (cfg : Config) (w : World) (s : ClientState)
    (method endpoint : String) (data : Option JValue)
    (params : List (String × String)) (r : Response) (j : JValue)
    (hc : strTruthy s.cst = true) (ht : strTruthy s.security_token = true)
    (hr : w (main_request s method endpoint data params) = HttpOutcome.success r)
    (h200 : r.status_code = 200) (hbody : r.body = Body.json j) :
    (api_request cfg w s method endpoint data params).1.1 = DispatchResult.json j ∧
    (api_request cfg w s method endpoint data params).2 =
      [main_request s method endpoint data params] ∧
    (main_request s method endpoint data params).headers =
      [("Content-Type", some ("application/json")),
       ("X-SECURITY-TOKEN", s.security_token),
       ("CST", s.cst),
       ("X-CAP-API-KEY", s.api_key)] := by
  rw [api_request_cached cfg w s method endpoint data params hc ht,
      dispatch_call_success w s method endpoint data params r hr (by omega)]
  rw [hbody]
  exact ⟨rfl, rfl, rfl⟩

/-- Witness for C7, the scenario of the claim: a login stores CST abc and
X-SECURITY-TOKEN xyz, the GET positions dispatch sends those token values
plus the api key, and the caller receives the positions body. -/
theorem c7_headers_and_relay_witness :
    (login cfgEx wPositions sSel).1.2.cst = some ("abc") ∧
    (login cfgEx wPositions sSel).1.2.security_token = some ("xyz") ∧
    (api_request cfgEx wPositions (login cfgEx wPositions sSel).1.2
        ("GET") ("positions") none []).1.1 =
      DispatchResult.json (JValue.obj [("positions", JValue.arr [])]) ∧
    (main_request (login cfgEx wPositions sSel).1.2 ("GET") ("positions") none []).headers =
      [("Content-Type", some ("application/json")),
       ("X-SECURITY-TOKEN", some ("xyz")),
       ("CST", some ("abc")),
       ("X-CAP-API-KEY", some ("demo-key"))] := by
  have h := c7_headers_and_relay cfgEx wPositions (login cfgEx wPositions sSel).1.2
    ("GET") ("positions") none [] respPositions (JValue.obj [("positions", JValue.arr [])])
    (by decide) (by decide) rfl rfl rfl
  refine ⟨by decide, by decide, h.1, ?_⟩
  rw [h.2.2]
  decide

/-- Claim C10: whenever the get_positions handler answers with a dispatched
result, the local status is 400 or 200, and it is 400 whenever the result is
an error dictionary (the exception dictionary or the authentication-required
dictionary); the upstream status is never used as the local status, it is
only embedded in the status_code field of the exception dictionary, which
carries the upstream status for an HTTP error response and None for a
transport failure. -/
theorem c10_local_error_status (cfg : Config) (w : World) (s : ClientState) (a : String) :
    (∀ res st, (get_positions cfg w s a).1 = RouteOutcome.dispatched res st →
      (st = 400 ∨ st = 200) ∧
      (∀ m sc, res = DispatchResult.errorDict m sc → st = 400) ∧
      (res = DispatchResult.authRequired → st = 400)) ∧
    (∀ s1 r, strTruthy s1.cst = true → strTruthy s1.security_token = true →
      w (main_request s1 ("GET") ("positions") none []) = HttpOutcome.success r →
      400 ≤ r.status_code → r.status_code < 600 →
      (api_request cfg w s1 ("GET") ("positions") none []).1.1 =
        DispatchResult.errorDict
          (http_error_msg r.status_code r.reason (main_request s1 ("GET") ("positions") none []).url)
          (some r.status_code)) ∧
    (∀ s1 m1, strTruthy s1.cst = true → strTruthy s1.security_token = true →
      w (main_request s1 ("GET") ("positions") none []) = HttpOutcome.transportError m1 →
      (api_request cfg w s1 ("GET") ("positions") none []).1.1 =
        DispatchResult.errorDict m1 none) := by
  refine ⟨?_, ?_, ?_⟩
  · intro res st h
    unfold get_positions at h
    split at h
    · exact absurd h (by simp)
    · unfold gp_dispatch at h
      split at h
      next b heq =>
        simp only [RouteOutcome.dispatched.injEq] at h
        obtain ⟨h1, h2⟩ := h
        have hst : st = if b = true then 400 else 200 := h2.symm
        refine ⟨?_, ?_, ?_⟩
        · cases b
          · right
            rw [hst]
            decide
          · left
            rw [hst]
            decide
        · intro m sc hres
          rw [h1.trans hres] at heq
          simp only [errorKeyCheck, Option.some.injEq] at heq
          rw [hst, ← heq]
          decide
        · intro hres
          rw [h1.trans hres] at heq
          simp only [errorKeyCheck, Option.some.injEq] at heq
          rw [hst, ← heq]
          decide
      next heq =>
        exact absurd h (by simp)
  · intro s1 r hc ht hr h4 h6
    rw [api_request_cached cfg w s1 ("GET") ("positions") none [] hc ht,
        dispatch_call_http_error w s1 ("GET") ("positions") none [] r hr h4 h6]
  · intro s1 m1 hc ht hr
    rw [api_request_cached cfg w s1 ("GET") ("positions") none [] hc ht,
        dispatch_call_transport w s1 ("GET") ("positions") none [] m1 hr]

/-- Witness for C10: a 503 upstream answer makes the handler respond with
local status 400, the upstream status travelling only in the body. -/
theorem c10_local_error_status_witness :
    (get_positions cfgEx w503 sTok ("demo")).1 =
      RouteOutcome.dispatched
        (DispatchResult.errorDict
          ("503 Server Error: Service Unavailable for url: https://demo-api-capital.backend-capital.com/api/v1/positions")
          (some 503)) 400 ∧
    ((400 : Nat) = 400 ∨ (400 : Nat) = 200) := by
  have h := (c10_local_error_status cfgEx w503 sTok ("demo")).1
    (DispatchResult.errorDict
      ("503 Server Error: Service Unavailable for url: https://demo-api-capital.backend-capital.com/api/v1/positions")
      (some 503)) 400 rfl
  exact ⟨rfl, h.1⟩
